import Mathlib

/-!
Verification development for the GraphRAG-SDK example notebooks
(`examples/ufc/demo-ufc.ipynb` and the basic-usage notebook).

The notebooks configure and sequence calls into the `graphrag_sdk`
package: they load sources, infer an ontology via a language model,
build a knowledge graph, and run a chat session.  The package code
itself is not part of the source tree; only the notebooks (its callers)
and recorded cell outputs are.  Accordingly:

* everything computed **in** the notebooks (source-list construction,
  the sampling size `round(len(sources) * percent)`, the straight-line
  shape of every cell) is embedded directly from the notebook code;
* recorded cell outputs (the printed ontology JSON, the printed chat
  responses) are embedded as concrete data;
* behaviour of the missing `graphrag_sdk` package is modelled from the
  specification; such definitions carry a doc comment starting
  `Modelled from the spec:`.
-/

namespace GraphRAG

/-! ## Ontology data model

The shape follows the ontology JSON recorded in the output of the
`print(json.dumps(ontology.to_json(), indent=4))` cell of
`demo-ufc.ipynb`: entities and relations, each with a label and a list
of attributes; a relation also names a source and a target entity label. -/

structure OntAttribute where
  name : String
  type : String
  unique : Bool
  required : Bool
deriving DecidableEq, Repr

structure OntEntity where
  label : String
  attributes : List OntAttribute
deriving DecidableEq, Repr

structure OntRelation where
  label : String
  source : String
  target : String
  attributes : List OntAttribute
deriving DecidableEq, Repr

structure Ontology where
  entities : List OntEntity
  relations : List OntRelation
deriving DecidableEq, Repr

/-- Two relation schemas duplicate one another when they connect the same
source entity label to the same target entity label. -/
def OntRelation.sameEndpoints (r1 r2 : OntRelation) : Prop :=
  r1.source = r2.source ∧ r1.target = r2.target

instance (r1 r2 : OntRelation) : Decidable (r1.sameEndpoints r2) := by
  unfold OntRelation.sameEndpoints; infer_instance

/-- No two relation types of the ontology share a source entity label and a
target entity label (the "no duplicate relation schemas" property). -/
def Ontology.relationEndpointsDupFree (o : Ontology) : Prop :=
  o.relations.Pairwise (fun r1 r2 => ¬ r1.sameEndpoints r2)

instance (o : Ontology) : Decidable o.relationEndpointsDupFree := by
  unfold Ontology.relationEndpointsDupFree; infer_instance

/-- Relation labels are pairwise distinct. -/
def Ontology.relationLabelsDistinct (o : Ontology) : Prop :=
  (o.relations.map OntRelation.label).Nodup

instance (o : Ontology) : Decidable o.relationLabelsDistinct := by
  unfold Ontology.relationLabelsDistinct; infer_instance

/-! ### The ontology produced by the recorded `Ontology.from_sources` run

Transcribed from the recorded output of the review cell of
`demo-ufc.ipynb` (execution count 5). -/

def ufcPersonEntity : OntEntity :=
  { label := "Person"
    attributes :=
      [ { name := "name", type := "string", unique := true, required := true }
      , { name := "nickname", type := "string", unique := false, required := false } ] }

def ufcFightEventEntity : OntEntity :=
  { label := "FightEvent"
    attributes :=
      [ { name := "name", type := "string", unique := true, required := true }
      , { name := "date", type := "string", unique := false, required := true }
      , { name := "location", type := "string", unique := false, required := true } ] }

def ufcBoutEntity : OntEntity :=
  { label := "Bout"
    attributes :=
      [ { name := "weight_class", type := "string", unique := false, required := true }
      , { name := "method", type := "string", unique := false, required := true }
      , { name := "round", type := "number", unique := false, required := true }
      , { name := "time", type := "string", unique := false, required := true }
      , { name := "time_format", type := "string", unique := false, required := true }
      , { name := "referee", type := "string", unique := false, required := false } ] }

def ufcFoughtInRelation : OntRelation :=
  { label := "FOUGHT_IN", source := "Person", target := "Bout"
    attributes :=
      [ { name := "result", type := "string", unique := false, required := true }
      , { name := "knockdowns", type := "number", unique := false, required := false }
      , { name := "significant_strikes", type := "number", unique := false, required := false }
      , { name := "significant_strikes_attempted", type := "number", unique := false, required := false }
      , { name := "significant_strikes_percentage", type := "string", unique := false, required := false }
      , { name := "total_strikes", type := "number", unique := false, required := false }
      , { name := "total_strikes_attempted", type := "number", unique := false, required := false }
      , { name := "takedowns", type := "number", unique := false, required := false }
      , { name := "takedowns_attempted", type := "number", unique := false, required := false }
      , { name := "takedown_percentage", type := "string", unique := false, required := false }
      , { name := "submissions_attempted", type := "number", unique := false, required := false }
      , { name := "passes", type := "number", unique := false, required := false }
      , { name := "reversals", type := "number", unique := false, required := false } ] }

def ufcPartOfEventRelation : OntRelation :=
  { label := "PART_OF_EVENT", source := "Bout", target := "FightEvent", attributes := [] }

def ufcPartOfRelation : OntRelation :=
  { label := "PART_OF", source := "Bout", target := "FightEvent", attributes := [] }

/-- The full ontology recorded as the result of the notebook's
`Ontology.from_sources` run over the sampled UFC documents. -/
def ufcOntology : Ontology :=
  { entities := [ufcPersonEntity, ufcFightEventEntity, ufcBoutEntity]
    relations := [ufcFoughtInRelation, ufcPartOfEventRelation, ufcPartOfRelation] }

/-- C1, counterexample: the ontology produced by the recorded
`Ontology.from_sources` run is not free of duplicate relation schemas:
it contains two relation types with the same source and target entity
labels (`PART_OF_EVENT` and `PART_OF`, both from `Bout` to `FightEvent`). -/
theorem ufc_ontology_has_duplicate_relation_endpoints :
    ¬ ufcOntology.relationEndpointsDupFree := by decide

/-- C1 (amended): the merged ontology keeps relation labels pairwise
distinct, but it may contain relation types with distinct labels whose
source and target entity labels coincide and whose attribute lists are
identical; in the recorded run both `PART_OF_EVENT` and `PART_OF` go from
`Bout` to `FightEvent` with no attributes. -/
theorem ufc_ontology_labels_distinct_yet_endpoint_duplicates :
    ufcOntology.relationLabelsDistinct ∧
    ∃ r1 ∈ ufcOntology.relations, ∃ r2 ∈ ufcOntology.relations,
      r1.label ≠ r2.label ∧ r1.sameEndpoints r2 ∧ r1.attributes = r2.attributes := by
  decide

/-! ## Source loader

Embedded from the notebook code that turns raw inputs into source
objects:

* basic notebook: `sources = [URL(url) for url in urls]`;
* `demo-ufc.ipynb`:
  `for file in os.listdir(src_files): sources.append(Source(os.path.join(src_files, file)))`.
-/

/-- A `graphrag_sdk.source.URL` object as constructed by the basic notebook. -/
structure URL where
  url : String
deriving DecidableEq, Repr

/-- A `graphrag_sdk.source.Source` object as constructed by `demo-ufc.ipynb`. -/
structure Source where
  path : String
deriving DecidableEq, Repr

/-- `os.path.join(dir, file)` for the notebook's POSIX-style relative paths. -/
def osPathJoin (dir file : String) : String := dir ++ "/" ++ file

/-- The list comprehension `[URL(url) for url in urls]`. -/
def urlSources (urls : List String) : List URL := urls.map URL.mk

/-- The `demo-ufc.ipynb` loader loop: starting from `sources = []`, append
`Source(os.path.join(src_files, file))` for each listed file, in order. -/
def fileSources (srcFiles : List String) (dir : String) : List Source :=
  srcFiles.foldl (fun acc file => acc ++ [Source.mk (osPathJoin dir file)]) []

theorem fileSources_eq_map (dir : String) (srcFiles : List String) :
    fileSources srcFiles dir = srcFiles.map (fun file => Source.mk (osPathJoin dir file)) := by
  have key : ∀ (l : List String) (acc : List Source),
      l.foldl (fun acc file => acc ++ [Source.mk (osPathJoin dir file)]) acc =
        acc ++ l.map (fun file => Source.mk (osPathJoin dir file)) := by
    intro l
    induction l with
    | nil => intro acc; simp
    | cons x xs ih => intro acc; simp [List.foldl_cons, ih]
  simpa using key srcFiles []

/-- C5: the source loader constructs exactly one source object per raw
input — `URL(u)` per URL string, `Source(os.path.join(dir, p))` per listed
file — preserving both the count and the order of the input list. -/
theorem source_loader_one_object_per_input_in_order
    (urls : List String) (dir : String) (srcFiles : List String) :
    (urlSources urls).length = urls.length ∧
    (∀ i : ℕ, (urlSources urls)[i]? = urls[i]?.map URL.mk) ∧
    (fileSources srcFiles dir).length = srcFiles.length ∧
    (∀ i : ℕ, (fileSources srcFiles dir)[i]? =
      srcFiles[i]?.map (fun file => Source.mk (osPathJoin dir file))) := by
  refine ⟨by simp [urlSources], fun i => by simp [urlSources], ?_, fun i => ?_⟩
  · rw [fileSources_eq_map]; simp
  · rw [fileSources_eq_map]; simp

/-! ## Ontology sampling step

Embedded from `demo-ufc.ipynb`:

```
percent = 0.1
sampled_sources = random.sample(sources, round(len(sources) * percent))
```

`len(sources) * percent` is modelled as the exact rational `n / 10` and
`round` as Python's round-half-to-even; for the sizes the claims quantify
over, the IEEE-double computation `n * 0.1` performed by Python rounds to
the same integer as the exact tenth. `random.sample(population, k)` picks
`k` elements at distinct positions of the population; the random position
choice is modelled as an arbitrary duplicate-free list of `k` indices. -/

/-- Python's `round(n * 0.1)` with `n * 0.1` taken as the exact rational
`n / 10`: round half to even. -/
def pyRoundTenth (n : ℕ) : ℕ :=
  if n % 10 < 5 then n / 10
  else if 5 < n % 10 then n / 10 + 1
  else if n / 10 % 2 = 0 then n / 10 else n / 10 + 1

/-- `random.sample(population, k)` for `k = idxs.length`: select the
elements at a duplicate-free list of positions of the population. -/
def randomSample {α : Type} (population : List α) (idxs : List (Fin population.length)) :
    List α :=
  idxs.map population.get

/-- C6: with `percent = 0.1`, the sample handed to `Ontology.from_sources`
has size exactly `round(n * 0.1)` — for any duplicate-free choice of
`round(n * 0.1)` positions — every sampled element comes from the source
list, and (the source files being pairwise distinct) the sample is
duplicate-free; the requested size never exceeds `n`. -/
theorem sampled_sources_size_and_dup_free {α : Type} (sources : List α)
    (idxs : List (Fin sources.length))
    (hlen : idxs.length = pyRoundTenth sources.length)
    (hnodup : idxs.Nodup) (hsrc : sources.Nodup) :
    (randomSample sources idxs).length = pyRoundTenth sources.length ∧
    (∀ x ∈ randomSample sources idxs, x ∈ sources) ∧
    (randomSample sources idxs).Nodup ∧
    pyRoundTenth sources.length ≤ sources.length := by
  refine ⟨by simpa [randomSample] using hlen, ?_, ?_, ?_⟩
  · intro x hx
    rcases List.mem_map.mp hx with ⟨i, _, rfl⟩
    exact List.get_mem sources i.1 i.2
  · exact hnodup.map (List.nodup_iff_injective_get.mp hsrc)
  · unfold pyRoundTenth
    rcases Nat.lt_or_ge sources.length 10 with h10 | h10
    · interval_cases h : sources.length <;> simp_all
    · have h1 : sources.length / 10 + 1 ≤ sources.length := by omega
      have h2 : sources.length / 10 ≤ sources.length := Nat.div_le_self _ _
      split <;> [exact h2; skip]
      split <;> [exact h1; skip]
      split <;> [exact h2; exact h1]

/-- Concrete run of `sampled_sources_size_and_dup_free`: ten distinct
sources, sample size `round(10 * 0.1) = 1`, sampling position 3. -/
theorem sampled_sources_size_and_dup_free_witness :
    (randomSample ["a", "b", "c", "d", "e", "f", "g", "h", "i", "j"]
        [⟨3, by decide⟩]).length =
      pyRoundTenth (["a", "b", "c", "d", "e", "f", "g", "h", "i", "j"] : List String).length ∧
    (∀ x ∈ randomSample ["a", "b", "c", "d", "e", "f", "g", "h", "i", "j"]
        [⟨3, by decide⟩], x ∈ ["a", "b", "c", "d", "e", "f", "g", "h", "i", "j"]) ∧
    (randomSample ["a", "b", "c", "d", "e", "f", "g", "h", "i", "j"]
        [⟨3, by decide⟩]).Nodup ∧
    pyRoundTenth (["a", "b", "c", "d", "e", "f", "g", "h", "i", "j"] : List String).length ≤
      (["a", "b", "c", "d", "e", "f", "g", "h", "i", "j"] : List String).length :=
  sampled_sources_size_and_dup_free
    ["a", "b", "c", "d", "e", "f", "g", "h", "i", "j"] [⟨3, by decide⟩]
    (by decide) (by decide) (by decide)

/-- C10: small-corpus edge case — for a source directory holding between
one and five files, `round(len(sources) * 0.1)` is `0` (tenths `0.1`
through `0.4` round down and `0.5` rounds to the even integer `0`), so the
sampled list handed to `Ontology.from_sources` is empty. -/
theorem small_corpus_sample_is_empty {α : Type} (sources : List α)
    (h1 : 1 ≤ sources.length) (h5 : sources.length ≤ 5)
    (idxs : List (Fin sources.length))
    (hlen : idxs.length = pyRoundTenth sources.length) :
    pyRoundTenth sources.length = 0 ∧ randomSample sources idxs = [] := by
  have hz : pyRoundTenth sources.length = 0 := by
    unfold pyRoundTenth
    interval_cases h : sources.length <;> simp
  refine ⟨hz, ?_⟩
  have : idxs.length = 0 := by rw [hlen, hz]
  simp [randomSample, List.eq_nil_of_length_eq_zero this]

/-- Concrete run of `small_corpus_sample_is_empty`: five source files
sample down to the empty list. -/
theorem small_corpus_sample_is_empty_witness :
    pyRoundTenth (["a", "b", "c", "d", "e"] : List String).length = 0 ∧
    randomSample ["a", "b", "c", "d", "e"] [] = [] :=
  small_corpus_sample_is_empty ["a", "b", "c", "d", "e"]
    (by decide) (by decide) [] (by decide)

/-! ## The notebooks as code

To settle the claim that the notebooks hold no original computation, every
code cell of both notebooks is transcribed into a small Python statement
language.  Dotted call targets are kept as single strings; keyword
arguments are explicit; numeric and string literals are kept as their
source text. -/

inductive PyExpr where
  | lit (text : String)
  | name (x : String)
  | listLit (elems : List PyExpr)
  | listComp (elem : PyExpr) (var : String) (iter : PyExpr)
  | call (fn : String) (args : List PyExpr)
  | kw (key : String) (value : PyExpr)
  | subscript (obj : PyExpr) (index : String)
  | fstr (parts : List PyExpr)
  | binop (op : String) (lhs rhs : PyExpr)

inductive PyStmt where
  | shell (cmd : String)
  | pyImport (line : String)
  | assign (lhs : String) (rhs : PyExpr)
  | subscriptAssign (obj index : String) (rhs : PyExpr)
  | exprStmt (e : PyExpr)
  | forIn (var : String) (iter : PyExpr) (body : PyStmt)
  | withAs (cm : PyExpr) (asVar : String) (body : PyStmt)
  | funcDef (fname : String) (params : List String) (body : PyStmt)
  | classDef (cname : String) (body : PyStmt)
  | ifElse (cond : PyExpr) (thenBody elseBody : PyStmt)
  | whileLoop (cond : PyExpr) (body : PyStmt)

/-- The call targets the notebooks use: constructors and functions of the
external `graphrag_sdk` package, methods of the objects it returns, and
Python standard-library builtins and modules.  Nothing on this list is
defined in the repository. -/
def sdkOrStdlibCall (fn : String) : Bool :=
  [ "load_dotenv", "logging.disable"
  , "URL", "Source", "LiteModel", "OpenAiGenerativeModel"
  , "Ontology.from_sources", "Ontology.from_json", "ontology.to_json"
  , "KnowledgeGraph", "KnowledgeGraphModelConfig.with_model"
  , "kg.process_sources", "kg.chat_session", "chat.send_message"
  , "os.listdir", "os.path.join", "sources.append"
  , "random.sample", "round", "len", "open", "print"
  , "file.write", "file.read", "json.dumps", "json.loads" ].contains fn

/-- An iterable that is just an input file list: the literal `urls` list of
the basic notebook, or a directory listing of the source-data folder. -/
def inputListIter : PyExpr → Bool
  | .name x => x == "urls"
  | .call fn _ => fn == "os.listdir"
  | _ => false

mutual

/-- An expression is straight-line library-calling code: literals, names,
keyword arguments, subscripts and f-strings, calls whose target is the
external SDK or the standard library, and list comprehensions running over
an input file list only. -/
def exprStraight : PyExpr → Bool
  | .lit _ => true
  | .name _ => true
  | .listLit es => exprsStraight es
  | .listComp e _ it => inputListIter it && exprStraight e
  | .call fn args => sdkOrStdlibCall fn && exprsStraight args
  | .kw _ v => exprStraight v
  | .subscript o _ => exprStraight o
  | .fstr parts => exprsStraight parts
  | .binop _ l r => exprStraight l && exprStraight r

def exprsStraight : List PyExpr → Bool
  | [] => true
  | e :: es => exprStraight e && exprsStraight es

end

/-- A statement is straight-line configuration and sequencing: shell
lines, imports, assignments and expression statements over straight-line
expressions, `with` blocks, and `for` loops running over an input file
list only; any function definition, class definition, branch, or `while`
loop disqualifies it. -/
def stmtStraight : PyStmt → Bool
  | .shell _ => true
  | .pyImport _ => true
  | .assign _ rhs => exprStraight rhs
  | .subscriptAssign _ _ rhs => exprStraight rhs
  | .exprStmt e => exprStraight e
  | .forIn _ it body => inputListIter it && exprStraight it && stmtStraight body
  | .withAs cm _ body => exprStraight cm && stmtStraight body
  | .funcDef _ _ _ => false
  | .classDef _ _ => false
  | .ifElse _ _ _ => false
  | .whileLoop _ _ => false

def notebookStraightLine (cells : List (List PyStmt)) : Bool :=
  cells.all fun cell => cell.all stmtStraight

/-- The code cells of the basic-usage notebook, transcribed in order. -/
def basicNotebookCells : List (List PyStmt) :=
  [ [ .shell "pip install graphrag_sdk[litellm]" ]
  , [ .pyImport "import os"
    , .pyImport "import logging"
    , .pyImport "from dotenv import load_dotenv"
    , .pyImport "from graphrag_sdk.source import URL"
    , .pyImport "from graphrag_sdk import KnowledgeGraph, Ontology"
    , .pyImport "from graphrag_sdk.models.litellm import LiteModel"
    , .pyImport "from graphrag_sdk.model_config import KnowledgeGraphModelConfig"
    , .exprStmt (.call "load_dotenv" [])
    , .exprStmt (.call "logging.disable" [.name "logging.CRITICAL"]) ]
  , [ .subscriptAssign "os.environ" "GEMINI_API_KEY" (.lit "")
    , .assign "falkor_host" (.lit "")
    , .assign "falkor_port" (.lit "None")
    , .assign "falkor_username" (.lit "")
    , .assign "falkor_password" (.lit "") ]
  , [ .assign "urls" (.listLit
        [ .lit "https://www.rottentomatoes.com/m/side_by_side_2012"
        , .lit "https://www.rottentomatoes.com/m/matrix"
        , .lit "https://www.rottentomatoes.com/m/matrix_revolutions"
        , .lit "https://www.rottentomatoes.com/m/matrix_reloaded"
        , .lit "https://www.rottentomatoes.com/m/speed_1994"
        , .lit "https://www.rottentomatoes.com/m/john_wick_chapter_4" ])
    , .assign "sources" (.listComp (.call "URL" [.name "url"]) "url" (.name "urls")) ]
  , [ .assign "model" (.call "LiteModel" [.kw "model_name" (.lit "gemini/gemini-2.0-flash")])
    , .assign "boundaries" (.lit "Extract only the most relevant information about all the movies, actors, and directors over the text. Avoid creating entities for details that can be expressed as attributes.")
    , .assign "ontology" (.call "Ontology.from_sources"
        [ .kw "sources" (.name "sources")
        , .kw "boundaries" (.name "boundaries")
        , .kw "model" (.name "model") ]) ]
  , [ .assign "kg" (.call "KnowledgeGraph"
        [ .kw "name" (.lit "movies")
        , .kw "model_config" (.call "KnowledgeGraphModelConfig.with_model" [.name "model"])
        , .kw "ontology" (.name "ontology")
        , .kw "host" (.name "falkor_host")
        , .kw "port" (.name "falkor_port")
        , .kw "username" (.name "falkor_username")
        , .kw "password" (.name "falkor_password") ])
    , .exprStmt (.call "kg.process_sources" [.name "sources"]) ]
  , [ .assign "chat" (.call "kg.chat_session" [])
    , .assign "answer" (.call "chat.send_message"
        [.lit "Who is the director of the movie The Matrix?"])
    , .exprStmt (.call "print" [.fstr
        [ .lit "Q: ", .subscript (.name "answer") "question"
        , .lit " \nA: ", .subscript (.name "answer") "response", .lit "\n" ]])
    , .assign "answer" (.call "chat.send_message"
        [.lit "How this director connected to Keanu Reeves?"])
    , .exprStmt (.call "print" [.fstr
        [ .lit "Q: ", .subscript (.name "answer") "question"
        , .lit " \nA: ", .subscript (.name "answer") "response", .lit "\n" ]])
    , .assign "answer" (.call "chat.send_message"
        [.lit "Who is the director of the movie Side by Side?"])
    , .exprStmt (.call "print" [.fstr
        [ .lit "Q: ", .subscript (.name "answer") "question"
        , .lit " \nA: ", .subscript (.name "answer") "response", .lit "\n" ]])
    , .assign "answer" (.call "chat.send_message"
        [.lit "Order the directors that you mentioned in all of our conversation by lexical order."])
    , .exprStmt (.call "print" [.fstr
        [ .lit "Q: ", .subscript (.name "answer") "question"
        , .lit " \nA: ", .subscript (.name "answer") "response", .lit "\n" ]]) ] ]

/-- The code cells of `demo-ufc.ipynb`, transcribed in order. -/
def ufcNotebookCells : List (List PyStmt) :=
  [ [ .shell "pip install graphrag_sdk[openai]" ]
  , [ .pyImport "import os"
    , .pyImport "import json"
    , .pyImport "import random"
    , .pyImport "from dotenv import load_dotenv"
    , .pyImport "from graphrag_sdk.source import Source"
    , .pyImport "from graphrag_sdk import KnowledgeGraph, Ontology"
    , .pyImport "from graphrag_sdk.models.openai import OpenAiGenerativeModel"
    , .pyImport "from graphrag_sdk.model_config import KnowledgeGraphModelConfig"
    , .exprStmt (.call "load_dotenv" []) ]
  , [ .assign "src_files" (.lit "examples/ufc/data/fight")
    , .assign "sources" (.listLit [])
    , .forIn "file" (.call "os.listdir" [.name "src_files"])
        (.exprStmt (.call "sources.append"
          [.call "Source" [.call "os.path.join" [.name "src_files", .name "file"]]])) ]
  , [ .assign "percent" (.lit "0.1")
    , .assign "boundaries" (.lit "Extract only the most relevant information about UFC fighters, fights, and events. Avoid creating entities for details that can be expressed as attributes.")
    , .assign "model" (.call "OpenAiGenerativeModel" [.kw "model_name" (.lit "gpt-4o")])
    , .assign "sampled_sources" (.call "random.sample"
        [ .name "sources"
        , .call "round" [.binop "*" (.call "len" [.name "sources"]) (.name "percent")] ])
    , .assign "ontology" (.call "Ontology.from_sources"
        [ .kw "sources" (.name "sampled_sources")
        , .kw "boundaries" (.name "boundaries")
        , .kw "model" (.name "model") ])
    , .withAs (.call "open" [.lit "ontology.json", .lit "w", .kw "encoding" (.lit "utf-8")])
        "file"
        (.exprStmt (.call "file.write"
          [.call "json.dumps" [.call "ontology.to_json" [], .kw "indent" (.lit "2")]])) ]
  , [ .exprStmt (.call "print"
        [.call "json.dumps" [.call "ontology.to_json" [], .kw "indent" (.lit "4")]]) ]
  , [ .assign "ontology_file" (.lit "ontology.json")
    , .withAs (.call "open" [.name "ontology_file", .lit "r", .kw "encoding" (.lit "utf-8")])
        "file"
        (.assign "ontology" (.call "Ontology.from_json"
          [.call "json.loads" [.call "file.read" []]]))
    , .assign "kg" (.call "KnowledgeGraph"
        [ .kw "name" (.lit "ufc")
        , .kw "model_config" (.call "KnowledgeGraphModelConfig.with_model" [.name "model"])
        , .kw "ontology" (.name "ontology") ])
    , .exprStmt (.call "kg.process_sources" [.name "sources"]) ]
  , [ .assign "chat" (.call "kg.chat_session" [])
    , .assign "response" (.call "chat.send_message" [.lit "Who is Salsa Boy?"])
    , .exprStmt (.call "print" [.name "response"])
    , .assign "response" (.call "chat.send_message" [.lit "Tell me about one of his fights?"])
    , .exprStmt (.call "print" [.name "response"]) ] ]

/-- C7: every code cell of both notebooks is a straight-line sequence of
configuration and calls into the external SDK and the standard library:
no function or class definitions, no branches or `while` loops, and the
only loops (the loader loop and the `URL` list comprehension) run over
input file lists. -/
theorem notebooks_are_straight_line_sdk_calls :
    notebookStraightLine basicNotebookCells = true ∧
    notebookStraightLine ufcNotebookCells = true := by
  constructor <;> rfl

/-! ## Graph builder (modelled)

The `graphrag_sdk` package that implements `kg.process_sources` is not in
the source tree; the notebooks only call it.  The builder is therefore
modelled from the specification. -/

/-- Modelled from the spec: a record written into the graph store by the
Graph Builder — an entity node or a relation edge, with its properties.
The `graphrag_sdk` implementation is missing from the repository. -/
inductive GraphRecord where
  | node (label : String) (props : List (String × String))
  | edge (label : String) (srcKey tgtKey : String) (props : List (String × String))
deriving DecidableEq, Repr

/-- Modelled from the spec: the stored graph, as the list of distinct
records written so far. -/
structure KnowledgeGraph where
  ontology : Ontology
  store : List GraphRecord
deriving Repr

/-- Modelled from the spec: an idempotent write — merge the record into the
store, inserting it only when it is not already present. -/
def mergeWrite (store : List GraphRecord) (r : GraphRecord) : List GraphRecord :=
  if r ∈ store then store else store ++ [r]

/-- Modelled from the spec: `kg.process_sources(sources)` — the Graph
Builder "extracts entities/relations per document according to the
ontology and writes them idempotently into a graph store".  The
per-document extraction (delegated to a hosted language model) is
abstracted as the function `extract`. -/
def KnowledgeGraph.process_sources (extract : Ontology → Source → List GraphRecord)
    (kg : KnowledgeGraph) (sources : List Source) : KnowledgeGraph :=
  { kg with
    store := sources.foldl (fun st s => (extract kg.ontology s).foldl mergeWrite st) kg.store }

theorem mem_mergeWrite_self (store : List GraphRecord) (r : GraphRecord) :
    r ∈ mergeWrite store r := by
  unfold mergeWrite
  split
  · assumption
  · simp

theorem mem_mergeWrite_of_mem {store : List GraphRecord} {a : GraphRecord}
    (r : GraphRecord) (h : a ∈ store) : a ∈ mergeWrite store r := by
  unfold mergeWrite
  split
  · exact h
  · exact List.mem_append_left _ h

theorem mem_foldl_mergeWrite_of_mem {a : GraphRecord} (rs : List GraphRecord) :
    ∀ store : List GraphRecord, a ∈ store → a ∈ rs.foldl mergeWrite store := by
  induction rs with
  | nil => intro store h; simpa using h
  | cons r rs ih =>
    intro store h
    exact ih (mergeWrite store r) (mem_mergeWrite_of_mem r h)

theorem mem_foldl_mergeWrite_of_mem_list {a : GraphRecord} (rs : List GraphRecord) :
    ∀ store : List GraphRecord, a ∈ rs → a ∈ rs.foldl mergeWrite store := by
  induction rs with
  | nil => intro store h; simp at h
  | cons r rs ih =>
    intro store h
    rcases List.mem_cons.mp h with rfl | h
    · exact mem_foldl_mergeWrite_of_mem rs _ (mem_mergeWrite_self store a)
    · exact ih (mergeWrite store r) h

theorem foldl_mergeWrite_of_subset (rs : List GraphRecord) :
    ∀ store : List GraphRecord, (∀ r ∈ rs, r ∈ store) → rs.foldl mergeWrite store = store := by
  induction rs with
  | nil => intro store _; rfl
  | cons r rs ih =>
    intro store h
    have hr : mergeWrite store r = store := by
      unfold mergeWrite
      rw [if_pos (h r (List.mem_cons_self r rs))]
    rw [List.foldl_cons, hr]
    exact ih store fun x hx => h x (List.mem_cons_of_mem r hx)

theorem mem_foldl_process_of_mem (extract : Ontology → Source → List GraphRecord)
    (ont : Ontology) {a : GraphRecord} (sources : List Source) :
    ∀ store : List GraphRecord, a ∈ store →
      a ∈ sources.foldl (fun st s => (extract ont s).foldl mergeWrite st) store := by
  induction sources with
  | nil => intro store h; simpa using h
  | cons t ts ih =>
    intro store h
    rw [List.foldl_cons]
    exact ih _ (mem_foldl_mergeWrite_of_mem (extract ont t) store h)

theorem extracted_mem_processed_store (extract : Ontology → Source → List GraphRecord)
    (ont : Ontology) (sources : List Source) :
    ∀ (store : List GraphRecord) (s : Source), s ∈ sources →
      ∀ r ∈ extract ont s,
        r ∈ sources.foldl (fun st s => (extract ont s).foldl mergeWrite st) store := by
  induction sources with
  | nil => intro store s h; simp at h
  | cons t ts ih =>
    intro store s hs r hr
    rcases List.mem_cons.mp hs with rfl | hs
    · rw [List.foldl_cons]
      exact mem_foldl_process_of_mem extract ont ts _
        (mem_foldl_mergeWrite_of_mem_list (extract ont s) store hr)
    · rw [List.foldl_cons]
      exact ih _ s hs r hr

theorem processed_run_fixed (extract : Ontology → Source → List GraphRecord)
    (ont : Ontology) (sources : List Source) :
    ∀ store : List GraphRecord,
      (∀ s ∈ sources, ∀ r ∈ extract ont s, r ∈ store) →
      sources.foldl (fun st s => (extract ont s).foldl mergeWrite st) store = store := by
  induction sources with
  | nil => intro store _; rfl
  | cons t ts ih =>
    intro store h
    rw [List.foldl_cons,
      foldl_mergeWrite_of_subset (extract ont t) store (h t (List.mem_cons_self t ts))]
    exact ih store fun s hs => h s (List.mem_cons_of_mem t hs)

/-- C2: writing the extracted entities and relations with
`kg.process_sources` is idempotent — running `process_sources` a second
time over the same source list, on the graph already populated from it,
leaves the stored graph equal to the graph after the first run. -/
theorem process_sources_idempotent (extract : Ontology → Source → List GraphRecord)
    (kg : KnowledgeGraph) (sources : List Source) :
    (kg.process_sources extract sources).process_sources extract sources =
      kg.process_sources extract sources := by
  unfold KnowledgeGraph.process_sources
  refine congrArg _ ?_
  exact processed_run_fixed extract kg.ontology sources _
    (extracted_mem_processed_store extract kg.ontology sources kg.store)

/-! ## Conversational query engine (modelled)

`kg.chat_session()` and `chat.send_message(...)` live in the missing
`graphrag_sdk` package; the engine is modelled from the specification.
The shape of the returned dictionary — keys `question`, `response`,
`context`, `cypher` — follows the chat responses recorded in the output of
the last cell of `demo-ufc.ipynb`. -/

/-- One completed question/answer turn of a chat session. -/
structure Turn where
  question : String
  answer : String
deriving DecidableEq, Repr

/-- Modelled from the spec: a chat session over a knowledge graph.  The
Conversational Query Engine "maintains per-session dialogue state,
translates each natural-language question plus prior turns into a graph
query, executes it, and composes a natural-language answer from the
result".  Query generation and answer composition (delegated to a hosted
language model) and query execution (delegated to the graph database) are
abstracted as the function fields; `history` is the per-session dialogue
state.  The `graphrag_sdk` implementation is missing from the repository. -/
structure ChatSession where
  genQuery : List Turn → String → String
  execQuery : String → String
  compose : String → String → String
  history : List Turn

/-- Modelled from the spec: `kg.chat_session()` starts a conversation with
no prior turns. -/
def chat_session (genQuery : List Turn → String → String)
    (execQuery : String → String) (compose : String → String → String) : ChatSession :=
  { genQuery := genQuery, execQuery := execQuery, compose := compose, history := [] }

/-- Modelled from the spec: `chat.send_message(q)` — translate the question
together with the session's prior turns into a single graph query, execute
it against the stored graph, compose the response from the execution
result, return the result dictionary, and append the turn to the session
state.  Dictionary keys follow the recorded `demo-ufc.ipynb` output. -/
def ChatSession.send_message (s : ChatSession) (q : String) :
    List (String × String) × ChatSession :=
  let cypher := s.genQuery s.history q
  let context := s.execQuery cypher
  let response := s.compose q context
  ( [("question", q), ("response", response), ("context", context), ("cypher", cypher)]
  , { s with history := s.history ++ [⟨q, response⟩] } )

/-- C3: each `send_message` turn generates a single graph query from the
question plus the session's prior turns, executes exactly that query, and
composes the response from its execution result; the returned dictionary
exposes the generated query under `cypher` and the execution result it was
composed from under `context`. -/
theorem send_message_query_flow (s : ChatSession) (q : String) :
    (s.send_message q).1.lookup "cypher" = some (s.genQuery s.history q) ∧
    (s.send_message q).1.lookup "context" =
      some (s.execQuery (s.genQuery s.history q)) ∧
    (s.send_message q).1.lookup "response" =
      some (s.compose q (s.execQuery (s.genQuery s.history q))) := by
  exact ⟨rfl, rfl, rfl⟩

/-- C8: the dictionary returned by `chat.send_message(q)` always carries
the keys `question` and `response`, and its `question` entry is exactly
the message string that was passed in. -/
theorem send_message_question_and_response_keys (s : ChatSession) (q : String) :
    (s.send_message q).1.lookup "question" = some q ∧
    ((s.send_message q).1.lookup "response").isSome = true := by
  exact ⟨rfl, rfl⟩

/-- C4: chat sessions are stateful across turns — `send_message` appends
every completed turn to the session state handed to later turns, and there
is a session with prior turns and a question whose response differs from
the response to the same question asked as the first turn of a fresh
session over the same engine. -/
theorem chat_session_stateful :
    (∀ (s : ChatSession) (q : String),
      ((s.send_message q).2.history =
        s.history ++ [⟨q, s.compose q (s.execQuery (s.genQuery s.history q))⟩]) ∧
      (s.send_message q).2.genQuery = s.genQuery ∧
      (s.send_message q).2.execQuery = s.execQuery ∧
      (s.send_message q).2.compose = s.compose) ∧
    (∃ (s : ChatSession) (q : String),
      s.history ≠ [] ∧
      (s.send_message q).1.lookup "response" ≠
        ((chat_session s.genQuery s.execQuery s.compose).send_message q).1.lookup
          "response") := by
  refine ⟨fun s q => ⟨rfl, rfl, rfl, rfl⟩, ?_⟩
  refine ⟨{ genQuery := fun h q => String.join (h.map Turn.question) ++ q
            execQuery := fun c => c
            compose := fun _ ctx => ctx
            history := [⟨"earlier question", "earlier answer"⟩] }, "q", ?_, ?_⟩
  · simp
  · decide

/-! ## Ontology serialization (modelled)

`ontology.to_json` and `Ontology.from_json` live in the missing
`graphrag_sdk` package.  They are modelled over a JSON tree whose shape
follows the ontology JSON recorded in the review cell of
`demo-ufc.ipynb`. -/

/-- A JSON value, restricted to the forms the ontology serialization
uses. -/
inductive Json where
  | str (s : String)
  | bool (b : Bool)
  | arr (elems : List Json)
  | obj (fields : List (String × Json))

/-- Field lookup in a JSON object. -/
def Json.lookupField : Json → String → Option Json
  | .obj fields, key => fields.lookup key
  | _, _ => none

def Json.asStr : Json → Option String
  | .str s => some s
  | _ => none

def Json.asBool : Json → Option Bool
  | .bool b => some b
  | _ => none

def Json.asArr : Json → Option (List Json)
  | .arr elems => some elems
  | _ => none

/-- Parse every element of a JSON array, failing when any element fails. -/
def parseList {α : Type} (parse : Json → Option α) : List Json → Option (List α)
  | [] => some []
  | j :: js => do
      let a ← parse j
      let as ← parseList parse js
      pure (a :: as)

/-- Modelled from the spec: Python's `json.dumps` followed by
`json.loads`, the identity on the JSON tree — the text encoding layer is
the standard library's, outside the repository. -/
def pyJsonDumpsLoads (j : Json) : Json := j

/-- Modelled from the spec: serialization of an attribute, with the field
shape of the recorded ontology JSON. -/
def OntAttribute.to_json (a : OntAttribute) : Json :=
  .obj [ ("name", .str a.name), ("type", .str a.type)
       , ("unique", .bool a.unique), ("required", .bool a.required) ]

/-- Modelled from the spec: parsing of an attribute, inverse direction of
`OntAttribute.to_json`. -/
def OntAttribute.from_json (j : Json) : Option OntAttribute := do
  let name ← (← j.lookupField "name").asStr
  let type ← (← j.lookupField "type").asStr
  let unique ← (← j.lookupField "unique").asBool
  let required ← (← j.lookupField "required").asBool
  pure ⟨name, type, unique, required⟩

/-- Modelled from the spec: serialization of an entity type. -/
def OntEntity.to_json (e : OntEntity) : Json :=
  .obj [ ("label", .str e.label)
       , ("attributes", .arr (e.attributes.map OntAttribute.to_json)) ]

/-- Modelled from the spec: parsing of an entity type. -/
def OntEntity.from_json (j : Json) : Option OntEntity := do
  let label ← (← j.lookupField "label").asStr
  let attrs ← (← j.lookupField "attributes").asArr
  let attributes ← parseList OntAttribute.from_json attrs
  pure ⟨label, attributes⟩

/-- Modelled from the spec: serialization of a relation type; source and
target entity labels are wrapped in one-field objects, as in the recorded
ontology JSON. -/
def OntRelation.to_json (r : OntRelation) : Json :=
  .obj [ ("label", .str r.label)
       , ("source", .obj [("label", .str r.source)])
       , ("target", .obj [("label", .str r.target)])
       , ("attributes", .arr (r.attributes.map OntAttribute.to_json)) ]

/-- Modelled from the spec: parsing of a relation type. -/
def OntRelation.from_json (j : Json) : Option OntRelation := do
  let label ← (← j.lookupField "label").asStr
  let source ← (← (← j.lookupField "source").lookupField "label").asStr
  let target ← (← (← j.lookupField "target").lookupField "label").asStr
  let attrs ← (← j.lookupField "attributes").asArr
  let attributes ← parseList OntAttribute.from_json attrs
  pure ⟨label, source, target, attributes⟩

/-- Modelled from the spec: `ontology.to_json`. -/
def Ontology.to_json (o : Ontology) : Json :=
  .obj [ ("entities", .arr (o.entities.map OntEntity.to_json))
       , ("relations", .arr (o.relations.map OntRelation.to_json)) ]

/-- Modelled from the spec: `Ontology.from_json`. -/
def Ontology.from_json (j : Json) : Option Ontology := do
  let ents ← (← j.lookupField "entities").asArr
  let entities ← parseList OntEntity.from_json ents
  let rels ← (← j.lookupField "relations").asArr
  let relations ← parseList OntRelation.from_json rels
  pure ⟨entities, relations⟩

theorem attribute_round_trip (a : OntAttribute) :
    OntAttribute.from_json a.to_json = some a := rfl

theorem attributes_round_trip (l : List OntAttribute) :
    parseList OntAttribute.from_json (l.map OntAttribute.to_json) = some l := by
  induction l with
  | nil => rfl
  | cons a l ih =>
    show (OntAttribute.from_json a.to_json).bind
        (fun x => (parseList OntAttribute.from_json (l.map OntAttribute.to_json)).bind
          (fun xs => some (x :: xs))) = some (a :: l)
    rw [attribute_round_trip a, ih]
    rfl

theorem entity_round_trip (e : OntEntity) :
    OntEntity.from_json e.to_json = some e := by
  show (parseList OntAttribute.from_json (e.attributes.map OntAttribute.to_json)).bind
      (fun attributes => some ⟨e.label, attributes⟩) = some e
  rw [attributes_round_trip]
  rfl

theorem entities_round_trip (l : List OntEntity) :
    parseList OntEntity.from_json (l.map OntEntity.to_json) = some l := by
  induction l with
  | nil => rfl
  | cons e l ih =>
    show (OntEntity.from_json e.to_json).bind
        (fun x => (parseList OntEntity.from_json (l.map OntEntity.to_json)).bind
          (fun xs => some (x :: xs))) = some (e :: l)
    rw [entity_round_trip e, ih]
    rfl

theorem relation_round_trip (r : OntRelation) :
    OntRelation.from_json r.to_json = some r := by
  show (parseList OntAttribute.from_json (r.attributes.map OntAttribute.to_json)).bind
      (fun attributes => some ⟨r.label, r.source, r.target, attributes⟩) = some r
  rw [attributes_round_trip]
  rfl

theorem relations_round_trip (l : List OntRelation) :
    parseList OntRelation.from_json (l.map OntRelation.to_json) = some l := by
  induction l with
  | nil => rfl
  | cons r l ih =>
    show (OntRelation.from_json r.to_json).bind
        (fun x => (parseList OntRelation.from_json (l.map OntRelation.to_json)).bind
          (fun xs => some (x :: xs))) = some (r :: l)
    rw [relation_round_trip r, ih]
    rfl

/-- C9: ontology serialization round-trips — for every ontology `o`,
parsing `json.loads(json.dumps(o.to_json()))` with `Ontology.from_json`
recovers `o` exactly (same entity types, relation types, and attributes),
so the knowledge graph built after saving the ontology to disk and
reloading it conforms to the reviewed ontology. -/
theorem ontology_serialization_round_trip (o : Ontology) :
    Ontology.from_json (pyJsonDumpsLoads o.to_json) = some o := by
  show (parseList OntEntity.from_json (o.entities.map OntEntity.to_json)).bind
      (fun entities =>
        (parseList OntRelation.from_json (o.relations.map OntRelation.to_json)).bind
          (fun relations => some ⟨entities, relations⟩)) = some o
  rw [entities_round_trip, relations_round_trip]
  rfl

end GraphRAG
